import Mathlib

/-!
Verification of the request-mediation pipeline of the api_gateway repository.

The definitions below are a shallow embedding of the Python sources:

 - gateway/utils.py      : get_client_ip, get_service_config, build_downstream_url,
                           sanitize_headers
 - gateway/middleware.py : APIAuthenticationMiddleware, RateLimitMiddleware,
                           RequestLoggingMiddleware
 - gateway/proxy.py      : ProxyService.proxy_request, ProxyService.health_check
 - gateway/models.py     : APIKey, RequestLog, ServiceConfig

Python str values are modelled as Lean String (header names, keys, paths) or
List Char (request bodies, where character-level slicing such as body[:1000]
matters).  Python dicts with string keys are modelled as association lists
with the exact update semantics of dict assignment (replace the value at an
existing key in place, otherwise append).  The Django cache is modelled as an
association list from keys to counters plus an explicit trace of the
cache.set operations performed (value and expiry).  Downstream transport
outcomes and health-probe outcomes are oracle parameters, since the network
is outside the program.
-/

/-- Python str.lower(), character by character on the underlying data (the
library toLower does not reduce inside the kernel). -/
def str_lower (s : String) : String := ⟨s.data.map Char.toLower⟩

/-- Python str.startswith(p). -/
def str_startsWith (s p : String) : Bool := p.data.isPrefixOf s.data

/-- Python str.endswith(p). -/
def str_endsWith (s p : String) : Bool := p.data.isSuffixOf s.data

/-- Python dict lookup d.get(k): the value at the first (unique) matching key. -/
def dict_get : List (String × String) → String → Option String
  | [], _ => none
  | (a, b) :: tl, k => if a == k then some b else dict_get tl k

/-- Python dict assignment d[k] = v: replace the value at an existing key in
place, otherwise append the new binding at the end. -/
def dict_set : List (String × String) → String → String → List (String × String)
  | [], k, v => [(k, v)]
  | (a, b) :: tl, k, v => if a == k then (k, v) :: tl else (a, b) :: dict_set tl k v

/-- Case-insensitive header lookup, the semantics of request.headers.get in
Django (HttpHeaders performs case-insensitive matching). -/
def headers_get (l : List (String × String)) (k : String) : Option String :=
  (l.find? (fun kv => str_lower kv.1 == str_lower k)).map (·.2)

/-- APIKey record from gateway/models.py (the fields the pipeline reads). -/
structure APIKey where
  name : String
  key : String
  is_active : Bool
  requests_per_minute : Nat
  requests_per_hour : Nat
deriving DecidableEq, Repr

/-- ServiceConfig record from gateway/models.py (the fields the pipeline reads). -/
structure ServiceConfig where
  name : String
  base_url : String
  timeout : Nat
  is_active : Bool
  health_check_path : String
  is_healthy : Bool
deriving DecidableEq, Repr

/-- The dict returned by get_service_config in gateway/utils.py.  A database
hit populates the three keys base_url, timeout and is_healthy; the settings
fallback may populate any subset; the empty dict (all fields absent) is the
falsy value that proxy_request treats as service not found. -/
structure ConfigDict where
  base_url : Option String
  timeout : Option Nat
  is_healthy : Option Bool
deriving DecidableEq, Repr

/-- The empty Python dict. -/
def ConfigDict.empty : ConfigDict := ⟨none, none, none⟩

/-- Python truthiness of the config dict: empty means falsy. -/
def ConfigDict.isEmpty (c : ConfigDict) : Bool :=
  c.base_url.isNone && c.timeout.isNone && c.is_healthy.isNone

/-- The external registry state read by the pipeline: the ServiceConfig
database table and the settings DOWNSTREAM_SERVICES mapping that
get_service_config falls back to. -/
structure Gateway where
  db_services : List ServiceConfig
  settings_services : List (String × ConfigDict)
deriving Repr

/-- Lookup in the settings DOWNSTREAM_SERVICES dict. -/
def settings_lookup (l : List (String × ConfigDict)) (n : String) : Option ConfigDict :=
  (l.find? (fun kv => kv.1 == n)).map (·.2)

/-- get_service_config from gateway/utils.py: first the database row with the
given name and is_active set, projected onto the three returned keys, else
the settings fallback, defaulting to the empty dict. -/
def get_service_config (st : Gateway) (service_name : String) : ConfigDict :=
  match st.db_services.find? (fun s => s.name == service_name && s.is_active) with
  | some s => ⟨some s.base_url, some s.timeout, some s.is_healthy⟩
  | none =>
    match settings_lookup st.settings_services service_name with
    | some d => d
    | none => ConfigDict.empty

/-- build_downstream_url from gateway/utils.py.  ValueError on a missing or
empty base_url is modelled as Except.error; a trailing slash is stripped from
base_url and a leading slash forced onto the path. -/
def build_downstream_url (st : Gateway) (service_name path : String) : Except String String :=
  let base_url := (get_service_config st service_name).base_url.getD ""
  if base_url == "" then
    .error ("No configuration found for service: " ++ service_name)
  else
    let b := if str_endsWith base_url "/" then base_url.dropRight 1 else base_url
    let p := if str_startsWith path "/" then path else "/" ++ path
    .ok (b ++ p)

/-- The sensitive header names removed by sanitize_headers in gateway/utils.py. -/
def sensitive_headers : List String :=
  ["authorization", "x-api-key", "cookie", "host", "content-length", "transfer-encoding"]

/-- sanitize_headers from gateway/utils.py: keep the pairs whose lowercased
name is not in the sensitive set. -/
def sanitize_headers (headers : List (String × String)) : List (String × String) :=
  headers.filter (fun kv => !(sensitive_headers.contains (str_lower kv.1)))

/-- The inbound request, as the middleware and proxy see it.  headers carries
the canonical Django header names; body is the decoded byte content as
characters; post_urlencoded models request.POST.urlencode(). -/
structure Request where
  method : String
  path : String
  headers : List (String × String)
  remote_addr : String
  scheme : String
  host : String
  content_type : String
  body : List Char
  post_urlencoded : List Char
deriving Repr

/-- get_client_ip from gateway/utils.py: the first comma-separated entry of a
truthy X-Forwarded-For header, else REMOTE_ADDR. -/
def get_client_ip (req : Request) : String :=
  match headers_get req.headers "X-Forwarded-For" with
  | some s => if s == "" then req.remote_addr else (s.splitOn ",").headD s
  | none => req.remote_addr

/-- A gateway response: either a JsonResponse error body with its status and
optional retry_after field, or a proxied HttpResponse with content and
headers. -/
inductive Response where
  | json (status : Nat) (error : String) (message : String) (retry_after : Option Nat)
  | http (status : Nat) (content : List Char) (headers : List (String × String))
deriving DecidableEq, Repr

/-- The HTTP status code of a response. -/
def Response.status_code : Response → Nat
  | .json s _ _ _ => s
  | .http s _ _ => s

/-- The 401 body returned by APIAuthenticationMiddleware when no API key is
supplied (middleware.py lines 28-32). -/
def missing_credential_response : Response :=
  .json 401 "API key required"
    "Please provide a valid API key in the X-API-Key header or Authorization header" none

/-- The 401 body returned by APIAuthenticationMiddleware on a lookup miss or
inactive key (middleware.py lines 42-46). -/
def invalid_credential_response : Response :=
  .json 401 "Invalid API key" "The provided API key is invalid or inactive" none

/-- Python: a or b, where a missing header and an empty header value are both
falsy. -/
def py_or_str (a b : Option String) : Option String :=
  match a with
  | some s => if s == "" then b else some s
  | none => b

/-- Credential extraction from middleware.py lines 22-28: X-API-Key or
Authorization, a Bearer prefix stripped, and a falsy result (absent or empty,
including an exactly-Bearer value) mapped to none. -/
def extract_api_key (hs : List (String × String)) : Option String :=
  let raw := py_or_str (headers_get hs "X-API-Key") (headers_get hs "Authorization")
  let k := match raw with
    | some s => if str_startsWith s "Bearer " then s.drop 7 else s
    | none => ""
  if k == "" then none else some k

/-- Outcome of APIAuthenticationMiddleware.process_request on a
non-infrastructure path: either the resolved key is attached to the request,
or a 401 response terminates the request. -/
inductive AuthOutcome where
  | proceed (k : APIKey)
  | respond (r : Response)
deriving DecidableEq, Repr

/-- APIAuthenticationMiddleware.process_request (middleware.py lines 22-48),
after the infrastructure-path exclusion: extract the credential, then look up
an active APIKey row with that key value. -/
def auth_process (keys : List APIKey) (req : Request) : AuthOutcome :=
  match extract_api_key req.headers with
  | none => .respond missing_credential_response
  | some s =>
    match keys.find? (fun k => k.key == s && k.is_active) with
    | some k => .proceed k
    | none => .respond invalid_credential_response

/-- The rate-limiter counter store: Django cache keys to counter values. -/
abbrev Cache : Type := List (String × Nat)

/-- cache.get(key, 0). -/
def cache_get : Cache → String → Nat
  | [], _ => 0
  | (a, b) :: tl, k => if a == k then b else cache_get tl k

/-- cache.set(key, value, expiry): store the value under the key, replacing
an existing binding in place (the expiry is tracked separately in the
operation trace). -/
def cache_set : Cache → String → Nat → Cache
  | [], k, v => [(k, v)]
  | (a, b) :: tl, k, v => if a == k then (k, v) :: tl else (a, b) :: cache_set tl k v

/-- One recorded cache.set call: key, stored value, expiry seconds. -/
structure CacheOp where
  key : String
  value : Nat
  expiry : Nat
deriving DecidableEq, Repr

/-- The shared prefix of the two rate-limit cache keys:
rate_limit:{api_key.key}:{client_ip}: . -/
def rate_key_prefix (k : APIKey) (ip : String) : String :=
  "rate_limit:" ++ k.key ++ ":" ++ ip ++ ":"

/-- The cache key of the minute bucket with index m. -/
def minute_bucket_key (k : APIKey) (ip : String) (m : Nat) : String :=
  rate_key_prefix k ip ++ ("minute:" ++ toString m)

/-- The cache key of the hour bucket with index h. -/
def hour_bucket_key (k : APIKey) (ip : String) (h : Nat) : String :=
  rate_key_prefix k ip ++ ("hour:" ++ toString h)

/-- The per-minute cache key (middleware.py line 66), windowed by
int(time // 60). -/
def minute_key (k : APIKey) (ip : String) (now : Nat) : String :=
  minute_bucket_key k ip (now / 60)

/-- The per-hour cache key (middleware.py line 77), windowed by
int(time // 3600). -/
def hour_key (k : APIKey) (ip : String) (now : Nat) : String :=
  hour_bucket_key k ip (now / 3600)

/-- The 429 body for a breached minute window (middleware.py lines 70-74). -/
def minute_limit_response (k : APIKey) : Response :=
  .json 429 "Rate limit exceeded"
    ("Rate limit exceeded: " ++ toString k.requests_per_minute ++ " requests per minute")
    (some 60)

/-- The 429 body for a breached hour window (middleware.py lines 81-85). -/
def hour_limit_response (k : APIKey) : Response :=
  .json 429 "Rate limit exceeded"
    ("Rate limit exceeded: " ++ toString k.requests_per_hour ++ " requests per hour")
    (some 3600)

/-- A program over the shared counter store, recording the individual
cache.get and cache.set calls the code performs.  This makes the sequence of
primitive cache operations explicit, so that both the sequential behaviour
and interleavings under concurrency can be derived from one embedding. -/
inductive CacheProg (α : Type) where
  | pure (a : α)
  | get (key : String) (k : Nat → CacheProg α)
  | set (key : String) (v : Nat) (expiry : Nat) (rest : CacheProg α)

/-- RateLimitMiddleware.process_request (middleware.py lines 65-91) as a
cache program: read the minute counter, reject on quota, read the hour
counter, reject on quota, then write both incremented counters with expiries
60 and 3600. -/
def rate_limit_prog (k : APIKey) (ip : String) (now : Nat) : CacheProg (Option Response) :=
  .get (minute_key k ip now) fun minute_count =>
    if k.requests_per_minute ≤ minute_count then
      .pure (some (minute_limit_response k))
    else
      .get (hour_key k ip now) fun hour_count =>
        if k.requests_per_hour ≤ hour_count then
          .pure (some (hour_limit_response k))
        else
          .set (minute_key k ip now) (minute_count + 1) 60
            (.set (hour_key k ip now) (hour_count + 1) 3600
              (.pure none))

/-- Sequential execution of a cache program: result, final store, and the
trace of set operations performed. -/
def runProg {α : Type} : CacheProg α → Cache → α × Cache × List CacheOp
  | .pure a, c => (a, c, [])
  | .get k f, c => runProg (f (cache_get c k)) c
  | .set k v e rest, c =>
    let (a, c2, ops) := runProg rest (cache_set c k v)
    (a, c2, ⟨k, v, e⟩ :: ops)

/-- RateLimitMiddleware.process_request for an authenticated request:
sequential execution of the rate-limit cache program. -/
def rate_limit_process (c : Cache) (k : APIKey) (ip : String) (now : Nat) :
    Option Response × Cache × List CacheOp :=
  runProg (rate_limit_prog k ip now) c

/-- One scheduling step of a cache program against the shared store: a get
reads the store, a set writes it. -/
def stepProg {α : Type} : CacheProg α → Cache → CacheProg α × Cache
  | .pure a, c => (.pure a, c)
  | .get k f, c => (f (cache_get c k), c)
  | .set k v _ rest, c => (rest, cache_set c k v)

/-- Interleaved execution of two cache programs over the shared store; the
schedule says which program performs the next primitive operation. -/
def run2 {α : Type} : List Bool → CacheProg α × CacheProg α → Cache →
    (CacheProg α × CacheProg α) × Cache
  | [], ps, c => (ps, c)
  | true :: bs, (p, q), c =>
    let (p2, c2) := stepProg p c
    run2 bs (p2, q) c2
  | false :: bs, (p, q), c =>
    let (q2, c2) := stepProg q c
    run2 bs (p, q2) c2

/-- A sequence of rate-limited requests from one key and client address at
the given times, threading the counter store. -/
def run_seq (k : APIKey) (ip : String) : List Nat → Cache → List (Option Response) × Cache
  | [], c => ([], c)
  | t :: ts, c =>
    let (r, c1, _) := rate_limit_process c k ip t
    let (rs, c2) := run_seq k ip ts c1
    (r :: rs, c2)

/-- RequestLoggingMiddleware._get_request_body (middleware.py lines 147-157):
a JSON body is captured in full (the middleware sees a plain HttpRequest, so
hasattr(request, "data") is false and request.body is decoded untruncated), a
form-urlencoded body is captured as request.POST.urlencode(), and any other
content type is captured as body[:1000]. -/
def get_request_body (req : Request) : Option (List Char) :=
  if req.content_type == "application/json" then
    some req.body
  else if req.content_type == "application/x-www-form-urlencoded" then
    some req.post_urlencoded
  else
    some (req.body.take 1000)

/-- The request.log_data snapshot built by
RequestLoggingMiddleware.process_request (middleware.py lines 106-114). -/
structure LogData where
  method : String
  path : String
  body : Option (List Char)
  client_ip : String
deriving Repr

/-- One RequestLog row (models.py), restricted to the fields the pipeline
computes. -/
structure AuditEntry where
  api_key : String
  method : String
  path : String
  status_code : Nat
  body : Option (List Char)
  client_ip : String
  is_error : Bool
deriving Repr

/-- The RequestLog row built by RequestLoggingMiddleware._log_request
(middleware.py lines 163-176) when a response and no in-flight exception is
recorded: is_error is status_code >= 400. -/
def make_audit_entry (key : APIKey) (ld : LogData) (resp : Response) : AuditEntry :=
  { api_key := key.key
    method := ld.method
    path := ld.path
    status_code := resp.status_code
    body := ld.body
    client_ip := ld.client_ip
    is_error := decide (400 ≤ resp.status_code) }

/-- RequestLoggingMiddleware._log_request (middleware.py lines 159-176): a row
is created only when request.api_key was attached by the authentication
middleware; otherwise nothing is recorded. -/
def log_request (api_key : Option APIKey) (ld : LogData) (resp : Response) : List AuditEntry :=
  match api_key with
  | some k => [make_audit_entry k ld resp]
  | none => []

/-- The infrastructure-path exclusion shared by all three middleware hooks
(middleware.py lines 19, 56, 99, 120). -/
def is_infra (path : String) : Bool :=
  str_startsWith path "/admin/" || str_startsWith path "/health/"

/-- The three X-Forwarded additions of proxy.py lines 40-42, as dict
assignments after sanitization. -/
def forward_headers (req : Request) : List (String × String) :=
  let hs := sanitize_headers req.headers
  let hs := dict_set hs "X-Forwarded-For" req.remote_addr
  let hs := dict_set hs "X-Forwarded-Proto" req.scheme
  dict_set hs "X-Forwarded-Host" req.host

/-- The outcome of the downstream transport call issued by
ProxyService.proxy_request, supplied as an oracle: a completed downstream
response, or one of the requests-library exception classes the code catches,
carrying the internal exception text where the class has one. -/
inductive TransportOutcome where
  | success (status : Nat) (resp_headers : List (String × String)) (content : List Char)
  | timeout
  | connectionError
  | requestError (exc : String)
  | unexpectedError (exc : String)
deriving Repr

/-- The downstream request actually issued, as far as the claims observe it:
target URL, outbound headers, timeout. -/
structure SentRequest where
  url : String
  headers : List (String × String)
  timeout : Nat
deriving DecidableEq, Repr

/-- Result of proxy_request: the gateway response and the downstream request
issued, none when the code returned before any network call. -/
structure ProxyResult where
  response : Response
  sent : Option SentRequest
deriving Repr

/-- The hop-by-hop response headers excluded when copying the downstream
response (proxy.py lines 79-83). -/
def excluded_response_headers : List String :=
  ["content-encoding", "content-length", "transfer-encoding", "connection", "keep-alive",
   "proxy-authenticate", "proxy-authorization", "te", "trailers", "upgrade"]

/-- ProxyService.proxy_request (proxy.py lines 17-121).  An empty config dict
yields 404 and an unhealthy service 503, both before any network call; a
ValueError escaping build_downstream_url is swallowed by the outer
except-Exception handler as a generic 500; otherwise the call is issued with
the sanitized-plus-forwarded headers and the configured timeout, and the
transport outcome maps to the response exactly as the except clauses do.
The assembly of the outbound body and query parameters (proxy.py lines
53-65) is not modelled; no claim observes it. -/
def proxy_request (st : Gateway) (req : Request) (service_name path : String)
    (outcome : TransportOutcome) : ProxyResult :=
  let cfg := get_service_config st service_name
  if cfg.isEmpty then
    { response := .json 404 "Service not found"
        ("Service \"" ++ service_name ++ "\" is not configured") none
      sent := none }
  else if !(cfg.is_healthy.getD true) then
    { response := .json 503 "Service unavailable"
        ("Service \"" ++ service_name ++ "\" is currently unavailable") none
      sent := none }
  else
    match build_downstream_url st service_name path with
    | .error _ =>
      { response := .json 500 "Internal server error" "An unexpected error occurred" none
        sent := none }
    | .ok target_url =>
      let sent := some (SentRequest.mk target_url (forward_headers req) (cfg.timeout.getD 30))
      match outcome with
      | .success s rh content =>
        { response := .http s content
            (rh.filter (fun kv => !(excluded_response_headers.contains (str_lower kv.1))))
          sent := sent }
      | .timeout =>
        { response := .json 504 "Request timeout"
            ("Request to " ++ service_name ++ " timed out") none
          sent := sent }
      | .connectionError =>
        { response := .json 503 "Service unavailable"
            ("Unable to connect to " ++ service_name) none
          sent := sent }
      | .requestError _ =>
        { response := .json 502 "Proxy error"
            ("Error while proxying request to " ++ service_name) none
          sent := sent }
      | .unexpectedError _ =>
        { response := .json 500 "Internal server error" "An unexpected error occurred" none
          sent := sent }

/-- Outcome of the health probe GET, supplied as an oracle: a completed
response with its status code, or a raised exception with its text. -/
inductive ProbeOutcome where
  | status (code : Nat)
  | failure (err : String)
deriving Repr

/-- The probe GET issued by health_check: URL and timeout. -/
structure HealthCall where
  url : String
  timeout : Nat
deriving DecidableEq, Repr

/-- ProxyService.health_check (proxy.py lines 123-136): an empty config dict
reports Service not configured; a config without base_url raises KeyError,
caught by the except handler (its message is abstracted here); otherwise a
GET is issued to base_url followed by the literal string "/health" with the
fixed timeout 5, and the result is (status == 200, a diagnostic string). -/
def health_check (st : Gateway) (service_name : String) (outcome : ProbeOutcome) :
    (Bool × String) × Option HealthCall :=
  let cfg := get_service_config st service_name
  if cfg.isEmpty then
    ((false, "Service not configured"), none)
  else
    match cfg.base_url with
    | none => ((false, "KeyError: base_url"), none)
    | some b =>
      let url := b ++ "/health"
      match outcome with
      | .status code => ((code == 200, "Status: " ++ toString code), some ⟨url, 5⟩)
      | .failure e => ((false, e), some ⟨url, 5⟩)

/-- Result of the full per-request pipeline: the client-visible response, the
final counter store, the RequestLog rows created, and whether the view (and
hence any downstream call) was reached. -/
structure PipelineResult where
  response : Response
  cache : Cache
  logs : List AuditEntry
  view_called : Bool
deriving Repr

/-- Modelled from the spec: the per-request middleware composition.  The
MIDDLEWARE ordering lives in the Django settings module, which is not part of
the sources; section 4.6 of the spec requires the Recorder to execute on
every response before it is returned to the client, which places the logging
middleware outermost, with authentication and rate limiting nested inside in
that order (section 2 data flow).  Each stage itself is the faithful
embedding of middleware.py above; the view outcome (for a proxy route, the
forwarder result) is a parameter. -/
def handle_request (keys : List APIKey) (c : Cache) (req : Request) (now : Nat)
    (view : Response) : PipelineResult :=
  if is_infra req.path then
    { response := view, cache := c, logs := [], view_called := true }
  else
    let ld : LogData :=
      { method := req.method
        path := req.path
        body := get_request_body req
        client_ip := get_client_ip req }
    match auth_process keys req with
    | .respond r =>
      { response := r, cache := c, logs := log_request none ld r, view_called := false }
    | .proceed key =>
      match rate_limit_process c key (get_client_ip req) now with
      | (some r, c2, _) =>
        { response := r, cache := c2, logs := log_request (some key) ld r, view_called := false }
      | (none, c2, _) =>
        { response := view, cache := c2, logs := log_request (some key) ld view,
          view_called := true }

/-- Left cancellation for string append. -/
theorem str_append_left_cancel {p a b : String} (h : p ++ a = p ++ b) : a = b := by
  have hd := congrArg String.data h
  simp only [String.data_append] at hd
  exact String.ext (List.append_cancel_left hd)

/-- The minute and hour cache keys of one credential and client never
collide: after the shared prefix, one continues with minute: and the other
with hour:. -/
theorem minute_bucket_key_ne_hour_bucket_key (k : APIKey) (ip : String) (m h : Nat) :
    minute_bucket_key k ip m ≠ hour_bucket_key k ip h := by
  intro heq
  have h2 : "minute:" ++ toString m = "hour:" ++ toString h :=
    str_append_left_cancel heq
  have hd := congrArg String.data h2
  simp only [String.data_append] at hd
  simp at hd

/-- Reading the key just written. -/
theorem cache_get_set_self (c : Cache) (k : String) (v : Nat) :
    cache_get (cache_set c k v) k = v := by
  induction c with
  | nil => simp [cache_get, cache_set]
  | cons hd tl ih =>
    obtain ⟨a, b⟩ := hd
    by_cases hak : a = k
    · simp [cache_get, cache_set, hak]
    · simp [cache_get, cache_set, hak, ih]

/-- Writing one key leaves every other key unchanged. -/
theorem cache_get_set_other (c : Cache) {k k2 : String} (v : Nat) (h : k2 ≠ k) :
    cache_get (cache_set c k v) k2 = cache_get c k2 := by
  have hkk2 : ¬(k = k2) := fun hh => h hh.symm
  induction c with
  | nil => simp [cache_get, cache_set, hkk2]
  | cons hd tl ih =>
    obtain ⟨a, b⟩ := hd
    by_cases hak : a = k
    · subst hak
      simp [cache_get, cache_set, hkk2]
    · by_cases hak2 : a = k2
      · subst hak2
        simp [cache_get, cache_set, hak]
      · simp [cache_get, cache_set, hak, hak2, ih]

/-- The minute-quota branch of the rate limiter (middleware.py lines 69-74):
a breached minute window returns the 429 body, touches no counter, and
performs no cache write. -/
theorem rate_limit_minute_reject (c : Cache) (k : APIKey) (ip : String) (t : Nat)
    (h : k.requests_per_minute ≤ cache_get c (minute_key k ip t)) :
    rate_limit_process c k ip t = (some (minute_limit_response k), c, []) := by
  simp only [rate_limit_process, rate_limit_prog, runProg]
  rw [if_pos h]
  simp [runProg]

/-- The hour-quota branch of the rate limiter (middleware.py lines 80-85). -/
theorem rate_limit_hour_reject (c : Cache) (k : APIKey) (ip : String) (t : Nat)
    (h1 : cache_get c (minute_key k ip t) < k.requests_per_minute)
    (h2 : k.requests_per_hour ≤ cache_get c (hour_key k ip t)) :
    rate_limit_process c k ip t = (some (hour_limit_response k), c, []) := by
  simp only [rate_limit_process, rate_limit_prog, runProg]
  rw [if_neg (Nat.not_le.mpr h1)]
  simp only [runProg]
  rw [if_pos h2]
  simp [runProg]

/-- The pass branch of the rate limiter (middleware.py lines 87-91): both
counters below quota, both incremented, with expiries 60 and 3600. -/
theorem rate_limit_pass (c : Cache) (k : APIKey) (ip : String) (t : Nat)
    (h1 : cache_get c (minute_key k ip t) < k.requests_per_minute)
    (h2 : cache_get c (hour_key k ip t) < k.requests_per_hour) :
    rate_limit_process c k ip t =
      (none,
       cache_set (cache_set c (minute_key k ip t) (cache_get c (minute_key k ip t) + 1))
         (hour_key k ip t) (cache_get c (hour_key k ip t) + 1),
       [⟨minute_key k ip t, cache_get c (minute_key k ip t) + 1, 60⟩,
        ⟨hour_key k ip t, cache_get c (hour_key k ip t) + 1, 3600⟩]) := by
  simp only [rate_limit_process, rate_limit_prog, runProg]
  rw [if_neg (Nat.not_le.mpr h1)]
  simp only [runProg]
  rw [if_neg (Nat.not_le.mpr h2)]
  simp [runProg]

/-- A time in minute bucket m lies in hour bucket m / 60. -/
theorem hour_bucket_of_minute_bucket {t m : Nat} (h : t / 60 = m) : t / 3600 = m / 60 := by
  rw [← h, Nat.div_div_eq_div_mul]

/-- Splitting a request sequence. -/
theorem run_seq_append (k : APIKey) (ip : String) (ts1 ts2 : List Nat) (c : Cache) :
    run_seq k ip (ts1 ++ ts2) c =
      ((run_seq k ip ts1 c).1 ++ (run_seq k ip ts2 (run_seq k ip ts1 c).2).1,
       (run_seq k ip ts2 (run_seq k ip ts1 c).2).2) := by
  induction ts1 generalizing c with
  | nil => simp [run_seq]
  | cons t ts ih => simp [run_seq, ih]

/-- Invariant of a run of passing requests inside one minute bucket m: when
both window counters start at n and the whole run stays below both quotas,
every request is admitted and both counters end at n plus the number of
requests. -/
theorem run_seq_pass (k : APIKey) (ip : String) (m : Nat) :
    ∀ (ts : List Nat) (c : Cache) (n : Nat),
      (∀ t ∈ ts, t / 60 = m) →
      cache_get c (minute_bucket_key k ip m) = n →
      cache_get c (hour_bucket_key k ip (m / 60)) = n →
      n + ts.length ≤ k.requests_per_minute →
      n + ts.length ≤ k.requests_per_hour →
      (run_seq k ip ts c).1 = ts.map (fun _ => none) ∧
      cache_get (run_seq k ip ts c).2 (minute_bucket_key k ip m) = n + ts.length ∧
      cache_get (run_seq k ip ts c).2 (hour_bucket_key k ip (m / 60)) = n + ts.length := by
  intro ts
  induction ts with
  | nil => intro c n _ hm hh _ _; simpa [run_seq] using ⟨hm, hh⟩
  | cons t ts ih =>
    intro c n hts hm hh hq hhq
    have htm : t / 60 = m := hts t (List.mem_cons_self t ts)
    have hmk : minute_key k ip t = minute_bucket_key k ip m := by
      rw [minute_key, htm]
    have hhk : hour_key k ip t = hour_bucket_key k ip (m / 60) := by
      rw [hour_key, hour_bucket_of_minute_bucket htm]
    have hmc : cache_get c (minute_key k ip t) = n := by rw [hmk, hm]
    have hhc : cache_get c (hour_key k ip t) = n := by rw [hhk, hh]
    have hlt1 : cache_get c (minute_key k ip t) < k.requests_per_minute := by
      rw [hmc]; simp at hq; omega
    have hlt2 : cache_get c (hour_key k ip t) < k.requests_per_hour := by
      rw [hhc]; simp at hhq; omega
    have hstep := rate_limit_pass c k ip t hlt1 hlt2
    have hne : minute_bucket_key k ip m ≠ hour_bucket_key k ip (m / 60) :=
      minute_bucket_key_ne_hour_bucket_key k ip m (m / 60)
    set c2 := cache_set (cache_set c (minute_key k ip t) (cache_get c (minute_key k ip t) + 1))
      (hour_key k ip t) (cache_get c (hour_key k ip t) + 1) with hc2
    have hm2 : cache_get c2 (minute_bucket_key k ip m) = n + 1 := by
      rw [hc2, hmk, hhk, cache_get_set_other _ _ hne, cache_get_set_self, hm]
    have hh2 : cache_get c2 (hour_bucket_key k ip (m / 60)) = n + 1 := by
      rw [hc2, hhk, cache_get_set_self, hh]
    have hrest := ih c2 (n + 1) (fun u hu => hts u (List.mem_cons_of_mem t hu))
      hm2 hh2 (by simp at hq ⊢; omega) (by simp at hhq ⊢; omega)
    refine ⟨?_, ?_, ?_⟩
    · simp only [run_seq, hstep, hrest.1, List.map_cons]
    · simp only [run_seq, hstep]
      simpa [Nat.add_assoc, Nat.add_comm 1] using hrest.2.1
    · simp only [run_seq, hstep]
      simpa [Nat.add_assoc, Nat.add_comm 1] using hrest.2.2

/-- Assigning an absent key appends the binding. -/
theorem dict_set_of_not_mem {l : List (String × String)} {k : String} (v : String)
    (h : ∀ kv ∈ l, kv.1 ≠ k) : dict_set l k v = l ++ [(k, v)] := by
  induction l with
  | nil => simp [dict_set]
  | cons hd tl ih =>
    obtain ⟨a, b⟩ := hd
    have ha : a ≠ k := h (a, b) (List.mem_cons_self _ _)
    simp only [dict_set, beq_iff_eq, if_neg ha, List.cons_append, List.cons.injEq, true_and]
    exact ih (fun kv hkv => h kv (List.mem_cons_of_mem _ hkv))

/-- Reading the key just assigned. -/
theorem dict_get_set_self (l : List (String × String)) (k v : String) :
    dict_get (dict_set l k v) k = some v := by
  induction l with
  | nil => simp [dict_get, dict_set]
  | cons hd tl ih =>
    obtain ⟨a, b⟩ := hd
    by_cases hak : a = k
    · simp [dict_get, dict_set, hak]
    · simp [dict_get, dict_set, hak, ih]

/-- Assigning one key leaves lookups of other keys unchanged. -/
theorem dict_get_set_other (l : List (String × String)) {k k2 : String} (v : String)
    (h : k2 ≠ k) : dict_get (dict_set l k v) k2 = dict_get l k2 := by
  have hkk2 : ¬(k = k2) := fun hh => h hh.symm
  induction l with
  | nil => simp [dict_get, dict_set, hkk2]
  | cons hd tl ih =>
    obtain ⟨a, b⟩ := hd
    by_cases hak : a = k
    · subst hak
      simp [dict_get, dict_set, hkk2]
    · by_cases hak2 : a = k2
      · subst hak2
        simp [dict_get, dict_set, hak]
      · simp [dict_get, dict_set, hak, hak2, ih]

/-- A demonstration credential: quota 60 per minute, 1000 per hour. -/
def demo_key : APIKey := ⟨"demo", "secret1", true, 60, 1000⟩

/-- A plain proxied request carrying a credential and no X-Forwarded headers. -/
def plain_request : Request :=
  ⟨"GET", "/proxy/echo/ping", [("Accept", "text/html"), ("X-API-Key", "secret1")],
   "9.9.9.9", "http", "gw.example", "text/plain", [], []⟩

/-- A request that already carries an X-Forwarded-For header from upstream. -/
def request_with_xff : Request :=
  ⟨"GET", "/proxy/echo/ping", [("X-Forwarded-For", "1.2.3.4"), ("Accept", "text/html")],
   "9.9.9.9", "http", "gw.example", "text/plain", [], []⟩

/-- The three headers the forwarder adds from the inbound request. -/
def xfwd_additions (req : Request) : List (String × String) :=
  [("X-Forwarded-For", req.remote_addr), ("X-Forwarded-Proto", req.scheme),
   ("X-Forwarded-Host", req.host)]

/-- C4 (counterexample): on a request that already carries an X-Forwarded-For
header, the outbound map is not the sanitized inbound map plus the three
additions: the inbound value 1.2.3.4 is overwritten with REMOTE_ADDR, so the
non-sensitive inbound header is not forwarded unchanged. -/
theorem forward_headers_counterexample :
    forward_headers request_with_xff ≠
      sanitize_headers request_with_xff.headers ++ xfwd_additions request_with_xff ∧
    dict_get request_with_xff.headers "X-Forwarded-For" = some "1.2.3.4" ∧
    dict_get (forward_headers request_with_xff) "X-Forwarded-For" = some "9.9.9.9" := by
  decide

/-- C4 (amended): when the inbound map carries none of the three
X-Forwarded names, the outbound headers are exactly the inbound headers with
the sensitive set removed case-insensitively followed by the three
X-Forwarded additions; in general the three X-Forwarded headers always end
up holding the values taken from the inbound request, overwriting any
inbound header of the same name. -/
theorem forward_headers_spec :
    (∀ req : Request,
      (∀ kv ∈ req.headers,
        kv.1 ≠ "X-Forwarded-For" ∧ kv.1 ≠ "X-Forwarded-Proto" ∧ kv.1 ≠ "X-Forwarded-Host") →
      forward_headers req = sanitize_headers req.headers ++ xfwd_additions req) ∧
    (∀ req : Request,
      dict_get (forward_headers req) "X-Forwarded-For" = some req.remote_addr ∧
      dict_get (forward_headers req) "X-Forwarded-Proto" = some req.scheme ∧
      dict_get (forward_headers req) "X-Forwarded-Host" = some req.host) := by
  constructor
  · intro req h
    have h1 : ∀ kv ∈ sanitize_headers req.headers, kv.1 ≠ "X-Forwarded-For" :=
      fun kv hkv => (h kv (List.mem_of_mem_filter hkv)).1
    have e1 := dict_set_of_not_mem (l := sanitize_headers req.headers) req.remote_addr h1
    have h2 : ∀ kv ∈ sanitize_headers req.headers ++ [("X-Forwarded-For", req.remote_addr)],
        kv.1 ≠ "X-Forwarded-Proto" := by
      intro kv hkv
      rcases List.mem_append.mp hkv with hin | hin
      · exact (h kv (List.mem_of_mem_filter hin)).2.1
      · simp at hin
        rw [hin]
        simp
    have e2 := dict_set_of_not_mem (l := sanitize_headers req.headers ++
      [("X-Forwarded-For", req.remote_addr)]) req.scheme h2
    have h3 : ∀ kv ∈ sanitize_headers req.headers ++ [("X-Forwarded-For", req.remote_addr)] ++
        [("X-Forwarded-Proto", req.scheme)], kv.1 ≠ "X-Forwarded-Host" := by
      intro kv hkv
      rcases List.mem_append.mp hkv with hin | hin
      · rcases List.mem_append.mp hin with hin2 | hin2
        · exact (h kv (List.mem_of_mem_filter hin2)).2.2
        · simp at hin2
          rw [hin2]
          simp
      · simp at hin
        rw [hin]
        simp
    have e3 := dict_set_of_not_mem (l := sanitize_headers req.headers ++
      [("X-Forwarded-For", req.remote_addr)] ++ [("X-Forwarded-Proto", req.scheme)])
      req.host h3
    simp only [forward_headers]
    rw [e1, e2, e3]
    simp [xfwd_additions]
  · intro req
    refine ⟨?_, ?_, ?_⟩
    · simp only [forward_headers]
      rw [dict_get_set_other _ _ (by decide), dict_get_set_other _ _ (by decide),
        dict_get_set_self]
    · simp only [forward_headers]
      rw [dict_get_set_other _ _ (by decide), dict_get_set_self]
    · simp only [forward_headers]
      rw [dict_get_set_self]

/-- C4 (witness): the amended statement evaluated on a concrete request. -/
theorem forward_headers_spec_witness :
    forward_headers plain_request =
      [("Accept", "text/html"), ("X-Forwarded-For", "9.9.9.9"),
       ("X-Forwarded-Proto", "http"), ("X-Forwarded-Host", "gw.example")] ∧
    dict_get (forward_headers plain_request) "X-Forwarded-Proto" = some "http" := by
  constructor
  · exact (forward_headers_spec.1 plain_request (by decide)).trans (by decide)
  · exact (forward_headers_spec.2 plain_request).2.1

/-- A JSON request whose body is 1001 characters long. -/
def json_request : Request :=
  ⟨"POST", "/proxy/echo/data", [("X-API-Key", "secret1")], "9.9.9.9", "http", "gw.example",
   "application/json", List.replicate 1001 'a', []⟩

/-- A plain-text request whose body is 1500 characters long. -/
def text_request : Request :=
  ⟨"POST", "/proxy/echo/data", [("X-API-Key", "secret1")], "9.9.9.9", "http", "gw.example",
   "text/plain", List.replicate 1500 'b', []⟩

/-- C9 (counterexample): a JSON body of 1001 characters is captured in full,
so the recorded body is not bounded by 1000 characters for every content
type. -/
theorem request_body_truncation_counterexample :
    json_request.content_type = "application/json" ∧
    ¬((get_request_body json_request).getD []).length ≤ 1000 := by
  constructor
  · rfl
  · have hb : get_request_body json_request = some json_request.body := rfl
    rw [hb]
    show ¬(List.replicate 1001 'a').length ≤ 1000
    rw [List.length_replicate]
    decide

/-- C9 (amended): the 1000-character truncation applies exactly to bodies
whose content type is neither application/json nor
application/x-www-form-urlencoded; those two content types are captured
without truncation. -/
theorem request_body_truncation_amended :
    ∀ req : Request,
      req.content_type ≠ "application/json" →
      req.content_type ≠ "application/x-www-form-urlencoded" →
      get_request_body req = some (req.body.take 1000) ∧
      ((get_request_body req).getD []).length ≤ 1000 := by
  intro req h1 h2
  have hg : get_request_body req = some (req.body.take 1000) := by
    simp [get_request_body, h1, h2]
  refine ⟨hg, ?_⟩
  rw [hg]
  simp only [Option.getD_some, List.length_take]
  exact Nat.min_le_left _ _

/-- C9 (witness): the amended statement evaluated on a concrete plain-text
request with a 1500-character body. -/
theorem request_body_truncation_amended_witness :
    get_request_body text_request = some (List.replicate 1000 'b') ∧
    ((get_request_body text_request).getD []).length ≤ 1000 := by
  have h := request_body_truncation_amended text_request (by decide) (by decide)
  constructor
  · rw [h.1]
    have ht : (List.replicate 1500 'b').take 1000 = List.replicate 1000 'b' := by
      rw [List.take_replicate]
      norm_num
    exact congrArg some ht
  · exact h.2

/-- A registry with one active, healthy service named echo. -/
def demo_gateway : Gateway :=
  ⟨[⟨"echo", "http://echo.local", 30, true, "/health", true⟩], []⟩

/-- A registry with one active service named down whose healthy flag is
cleared. -/
def unhealthy_gateway : Gateway :=
  ⟨[⟨"down", "http://down.local", 30, true, "/health", false⟩], []⟩

/-- C5: for a resolvable healthy service, the transport outcome of the
downstream call maps to the gateway response as timeout to 504
RequestTimeout, connection error to 503 ServiceUnavailable, any other
requests-library error to 502 ProxyError, and any unexpected internal fault
to 500 InternalError whose message is the fixed generic text, independent of
the internal exception text. -/
theorem transport_failure_mapping :
    ∀ (st : Gateway) (req : Request) (sn path url : String),
      (get_service_config st sn).isEmpty = false →
      (get_service_config st sn).is_healthy.getD true = true →
      build_downstream_url st sn path = Except.ok url →
      (proxy_request st req sn path .timeout).response =
        .json 504 "Request timeout" ("Request to " ++ sn ++ " timed out") none ∧
      (proxy_request st req sn path .connectionError).response =
        .json 503 "Service unavailable" ("Unable to connect to " ++ sn) none ∧
      (∀ e, (proxy_request st req sn path (.requestError e)).response =
        .json 502 "Proxy error" ("Error while proxying request to " ++ sn) none) ∧
      (∀ e, (proxy_request st req sn path (.unexpectedError e)).response =
        .json 500 "Internal server error" "An unexpected error occurred" none) := by
  intro st req sn path url h1 h2 h3
  refine ⟨?_, ?_, fun e => ?_, fun e => ?_⟩ <;> simp [proxy_request, h1, h2, h3]

/-- C5 (witness): the mapping evaluated against the demo registry. -/
theorem transport_failure_mapping_witness :
    (proxy_request demo_gateway plain_request "echo" "ping" .timeout).response =
      .json 504 "Request timeout" "Request to echo timed out" none ∧
    (proxy_request demo_gateway plain_request "echo" "ping"
      (.unexpectedError "secret traceback")).response =
      .json 500 "Internal server error" "An unexpected error occurred" none := by
  have h := transport_failure_mapping demo_gateway plain_request "echo" "ping"
    "http://echo.local/ping" (by decide) (by decide) rfl
  exact ⟨h.1, h.2.2.2 "secret traceback"⟩

/-- C6: a service name with no active registered descriptor (neither an
active database row nor a settings fallback entry) yields 404
ServiceNotConfigured with no downstream request issued; an active descriptor
whose healthy flag is false yields 503 ServiceUnavailable with no downstream
request issued. -/
theorem unknown_or_unhealthy_service_no_call :
    (∀ (st : Gateway) (req : Request) (sn path : String) (outcome : TransportOutcome),
      st.db_services.find? (fun s => s.name == sn && s.is_active) = none →
      settings_lookup st.settings_services sn = none →
      proxy_request st req sn path outcome =
        { response := .json 404 "Service not found"
            ("Service \"" ++ sn ++ "\" is not configured") none
          sent := none }) ∧
    (∀ (st : Gateway) (req : Request) (sn path : String) (outcome : TransportOutcome)
        (s : ServiceConfig),
      st.db_services.find? (fun x => x.name == sn && x.is_active) = some s →
      s.is_healthy = false →
      proxy_request st req sn path outcome =
        { response := .json 503 "Service unavailable"
            ("Service \"" ++ sn ++ "\" is currently unavailable") none
          sent := none }) := by
  constructor
  · intro st req sn path outcome h1 h2
    simp [proxy_request, get_service_config, h1, h2, ConfigDict.empty, ConfigDict.isEmpty]
  · intro st req sn path outcome s hfind hh
    simp [proxy_request, get_service_config, hfind, hh, ConfigDict.isEmpty]

/-- C6 (witness): evaluated on an unregistered name and on the unhealthy
demo service. -/
theorem unknown_or_unhealthy_service_no_call_witness :
    proxy_request demo_gateway plain_request "ghost" "ping" .timeout =
      { response := .json 404 "Service not found"
          "Service \"ghost\" is not configured" none
        sent := none } ∧
    proxy_request unhealthy_gateway plain_request "down" "ping" .timeout =
      { response := .json 503 "Service unavailable"
          "Service \"down\" is currently unavailable" none
        sent := none } := by
  constructor
  · exact unknown_or_unhealthy_service_no_call.1 demo_gateway plain_request "ghost" "ping"
      .timeout (by decide) (by decide)
  · exact unknown_or_unhealthy_service_no_call.2 unhealthy_gateway plain_request "down" "ping"
      .timeout ⟨"down", "http://down.local", 30, true, "/health", false⟩ (by decide) (by decide)

/-- A request to a proxy route carrying no credential header at all. -/
def no_credential_request : Request :=
  ⟨"GET", "/proxy/echo/ping", [("Accept", "text/html")], "9.9.9.9", "http", "gw.example",
   "text/plain", [], []⟩

/-- A request carrying a credential value that matches no active key. -/
def unknown_credential_request : Request :=
  ⟨"GET", "/proxy/echo/ping", [("X-API-Key", "wrong-secret")], "9.9.9.9", "http", "gw.example",
   "text/plain", [], []⟩

/-- A 200 view response standing for the downstream result. -/
def ok_view : Response := .http 200 ['o', 'k'] []

/-- C7: a proxy-route request with neither an X-API-Key nor an Authorization
header is answered 401 with the MissingCredential body and the view (and so
the downstream service) is never reached; a request whose extracted
credential matches no active key record is answered 401 with the distinct
InvalidCredential body, again without reaching the view. -/
theorem missing_or_invalid_credential_rejected :
    (∀ (keys : List APIKey) (c : Cache) (req : Request) (now : Nat) (view : Response),
      is_infra req.path = false →
      headers_get req.headers "X-API-Key" = none →
      headers_get req.headers "Authorization" = none →
      (handle_request keys c req now view).response = missing_credential_response ∧
      (handle_request keys c req now view).view_called = false) ∧
    (∀ (keys : List APIKey) (c : Cache) (req : Request) (now : Nat) (view : Response)
        (s : String),
      is_infra req.path = false →
      extract_api_key req.headers = some s →
      keys.find? (fun k => k.key == s && k.is_active) = none →
      (handle_request keys c req now view).response = invalid_credential_response ∧
      (handle_request keys c req now view).view_called = false) ∧
    missing_credential_response ≠ invalid_credential_response := by
  refine ⟨?_, ?_, by decide⟩
  · intro keys c req now view hinfra h1 h2
    have hex : extract_api_key req.headers = none := by
      simp [extract_api_key, h1, h2, py_or_str]
    have hauth : auth_process keys req = .respond missing_credential_response := by
      simp [auth_process, hex]
    constructor <;> simp [handle_request, hinfra, hauth]
  · intro keys c req now view s hinfra hex hfind
    have hauth : auth_process keys req = .respond invalid_credential_response := by
      simp [auth_process, hex, hfind]
    constructor <;> simp [handle_request, hinfra, hauth]

/-- C7 (witness): the two rejections evaluated on concrete requests. -/
theorem missing_or_invalid_credential_rejected_witness :
    ((handle_request [demo_key] [] no_credential_request 0 ok_view).response =
      missing_credential_response ∧
     (handle_request [demo_key] [] no_credential_request 0 ok_view).view_called = false) ∧
    ((handle_request [demo_key] [] unknown_credential_request 0 ok_view).response =
      invalid_credential_response ∧
     (handle_request [demo_key] [] unknown_credential_request 0 ok_view).view_called = false) := by
  constructor
  · exact missing_or_invalid_credential_rejected.1 [demo_key] [] no_credential_request 0
      ok_view (by decide) (by decide) (by decide)
  · exact missing_or_invalid_credential_rejected.2.1 [demo_key] [] unknown_credential_request 0
      ok_view "wrong-secret" (by decide) (by decide) (by decide)

/-- A registry whose single service configures the health path /status. -/
def status_path_gateway : Gateway :=
  ⟨[⟨"svc", "http://svc.local", 30, true, "/status", true⟩], []⟩

/-- C8 (code bug): the registered descriptor for svc configures the
health-check path /status, yet the probe issues its GET to base_url followed
by the literal /health (with the fixed timeout 5), not to base_url plus the
configured path: health_check never reads health_check_path (proxy.py line
130 hardcodes the suffix, and get_service_config does not even return the
field). -/
theorem health_check_ignores_configured_path :
    (status_path_gateway.db_services.find?
      (fun s => s.name == "svc" && s.is_active)).map (·.health_check_path) = some "/status" ∧
    (health_check status_path_gateway "svc" (.status 200)).2 =
      some ⟨"http://svc.local/health", 5⟩ ∧
    (health_check status_path_gateway "svc" (.status 200)).1 = (true, "Status: 200") ∧
    "http://svc.local" ++ "/status" ≠ "http://svc.local/health" := by
  refine ⟨by decide, ?_, ?_, by decide⟩ <;> rfl

/-- The credential used in the concurrency scenario: quotas far above the
two requests involved. -/
def conc_key : APIKey := ⟨"conc", "secret-c", true, 10, 100⟩

/-- The rate-limit cache program of one request from conc_key at time 0. -/
def conc_prog : CacheProg (Option Response) := rate_limit_prog conc_key "2.2.2.2" 0

/-- A schedule in which both requests perform their two cache.get reads
before either performs its cache.set writes. -/
def lost_update_schedule : List Bool :=
  [true, false, true, false, true, true, false, false]

/-- C3 (code bug): the limiter reads a counter with cache.get and later
writes it back incremented with cache.set (middleware.py lines 67 and 88),
not atomically; under the interleaving in which two concurrent requests for
the same window key both read before either writes, both requests complete,
yet the final minute counter holds 1 instead of 2 — a lost update.  Run
sequentially, the same two requests leave the counter at 2. -/
theorem rate_limit_lost_update :
    (run2 lost_update_schedule (conc_prog, conc_prog) []).1 = (.pure none, .pure none) ∧
    cache_get (run2 lost_update_schedule (conc_prog, conc_prog) []).2
      (minute_key conc_key "2.2.2.2" 0) = 1 ∧
    cache_get (runProg conc_prog (runProg conc_prog []).2.1).2.1
      (minute_key conc_key "2.2.2.2" 0) = 2 := by
  refine ⟨rfl, rfl, rfl⟩

/-- C10: a request the limiter rejects with 429 changes neither window
counter and performs no cache write at all; both counters are written,
each exactly once, with expiries 60 and 3600 seconds, exactly when the
request passes both quota checks. -/
theorem denied_request_consumes_no_quota :
    ∀ (c : Cache) (k : APIKey) (ip : String) (t : Nat),
      (k.requests_per_minute ≤ cache_get c (minute_key k ip t) →
        rate_limit_process c k ip t = (some (minute_limit_response k), c, [])) ∧
      (cache_get c (minute_key k ip t) < k.requests_per_minute →
        k.requests_per_hour ≤ cache_get c (hour_key k ip t) →
        rate_limit_process c k ip t = (some (hour_limit_response k), c, [])) ∧
      (cache_get c (minute_key k ip t) < k.requests_per_minute →
        cache_get c (hour_key k ip t) < k.requests_per_hour →
        (rate_limit_process c k ip t).1 = none ∧
        (rate_limit_process c k ip t).2.2 =
          [⟨minute_key k ip t, cache_get c (minute_key k ip t) + 1, 60⟩,
           ⟨hour_key k ip t, cache_get c (hour_key k ip t) + 1, 3600⟩]) := by
  intro c k ip t
  refine ⟨rate_limit_minute_reject c k ip t, rate_limit_hour_reject c k ip t, ?_⟩
  intro h1 h2
  rw [rate_limit_pass c k ip t h1 h2]
  exact ⟨rfl, rfl⟩

/-- C10 (witness): a minute-breached cache, an hour-breached cache, and a
passing cache, evaluated for the demo credential at time 90. -/
theorem denied_request_consumes_no_quota_witness :
    rate_limit_process [(minute_key demo_key "9.9.9.9" 90, 60)] demo_key "9.9.9.9" 90 =
      (some (minute_limit_response demo_key), [(minute_key demo_key "9.9.9.9" 90, 60)], []) ∧
    rate_limit_process [(hour_key demo_key "9.9.9.9" 90, 1000)] demo_key "9.9.9.9" 90 =
      (some (hour_limit_response demo_key), [(hour_key demo_key "9.9.9.9" 90, 1000)], []) ∧
    (rate_limit_process [] demo_key "9.9.9.9" 90).2.2 =
      [⟨minute_key demo_key "9.9.9.9" 90, 1, 60⟩, ⟨hour_key demo_key "9.9.9.9" 90, 1, 3600⟩] := by
  refine ⟨?_, ?_, ?_⟩
  · exact (denied_request_consumes_no_quota [(minute_key demo_key "9.9.9.9" 90, 60)]
      demo_key "9.9.9.9" 90).1 (by decide)
  · exact (denied_request_consumes_no_quota [(hour_key demo_key "9.9.9.9" 90, 1000)]
      demo_key "9.9.9.9" 90).2.1 (by decide) (by decide)
  · exact ((denied_request_consumes_no_quota [] demo_key "9.9.9.9" 90).2.2
      (by decide) (by decide)).2

/-- C2: for an authenticated credential, a sequence of requests from one
client address inside one minute bucket admits the first
requests-per-minute requests and answers the next one 429 with
retry_after 60 (given the hour quota is not the smaller one); the analogous
hour property holds with retry_after 3600 (shown inside one minute bucket
with the hour quota the smaller one); and whenever both windows are at or
over quota on the same request, the minute rejection is the one returned,
because the minute check runs first. -/
theorem rate_limit_window_sequence :
    (∀ (k : APIKey) (ip : String) (m : Nat) (ts : List Nat) (tl : Nat),
      ts.length = k.requests_per_minute →
      (∀ t ∈ ts, t / 60 = m) → tl / 60 = m →
      k.requests_per_minute ≤ k.requests_per_hour →
      (∀ r ∈ (run_seq k ip ts []).1, r = none) ∧
      (run_seq k ip (ts ++ [tl]) []).1.getLast? = some (some (minute_limit_response k))) ∧
    (∀ (k : APIKey) (ip : String) (m : Nat) (ts : List Nat) (tl : Nat),
      ts.length = k.requests_per_hour →
      (∀ t ∈ ts, t / 60 = m) → tl / 60 = m →
      k.requests_per_hour < k.requests_per_minute →
      (∀ r ∈ (run_seq k ip ts []).1, r = none) ∧
      (run_seq k ip (ts ++ [tl]) []).1.getLast? = some (some (hour_limit_response k))) ∧
    (∀ (c : Cache) (k : APIKey) (ip : String) (t : Nat),
      k.requests_per_minute ≤ cache_get c (minute_key k ip t) →
      k.requests_per_hour ≤ cache_get c (hour_key k ip t) →
      (rate_limit_process c k ip t).1 = some (minute_limit_response k)) := by
  refine ⟨?_, ?_, ?_⟩
  · intro k ip m ts tl hlen hts htl hQH
    obtain ⟨hresp, hmc, hhc⟩ := run_seq_pass k ip m ts [] 0 hts rfl rfl
      (by omega) (by omega)
    have hall : ∀ r ∈ (run_seq k ip ts []).1, r = none := by
      intro r hr
      rw [hresp] at hr
      obtain ⟨a, _, hfa⟩ := List.mem_map.mp hr
      exact hfa.symm
    refine ⟨hall, ?_⟩
    have hmk : minute_key k ip tl = minute_bucket_key k ip m := by
      rw [minute_key, htl]
    have hreject : rate_limit_process (run_seq k ip ts []).2 k ip tl =
        (some (minute_limit_response k), (run_seq k ip ts []).2, []) := by
      refine rate_limit_minute_reject _ k ip tl ?_
      rw [hmk, hmc]
      omega
    rw [run_seq_append]
    simp only [run_seq, hreject]
    exact List.getLast?_concat _
  · intro k ip m ts tl hlen hts htl hHQ
    obtain ⟨hresp, hmc, hhc⟩ := run_seq_pass k ip m ts [] 0 hts rfl rfl
      (by omega) (by omega)
    have hall : ∀ r ∈ (run_seq k ip ts []).1, r = none := by
      intro r hr
      rw [hresp] at hr
      obtain ⟨a, _, hfa⟩ := List.mem_map.mp hr
      exact hfa.symm
    refine ⟨hall, ?_⟩
    have hmk : minute_key k ip tl = minute_bucket_key k ip m := by
      rw [minute_key, htl]
    have hhk : hour_key k ip tl = hour_bucket_key k ip (m / 60) := by
      rw [hour_key, hour_bucket_of_minute_bucket htl]
    have hreject : rate_limit_process (run_seq k ip ts []).2 k ip tl =
        (some (hour_limit_response k), (run_seq k ip ts []).2, []) := by
      refine rate_limit_hour_reject _ k ip tl ?_ ?_
      · rw [hmk, hmc]
        omega
      · rw [hhk, hhc]
        omega
    rw [run_seq_append]
    simp only [run_seq, hreject]
    exact List.getLast?_concat _
  · intro c k ip t h1 _
    rw [rate_limit_minute_reject c k ip t h1]

/-- The credential of the minute-quota scenario: 2 per minute, 5 per hour. -/
def scenario_minute_key : APIKey := ⟨"wm", "wm-secret", true, 2, 5⟩

/-- The credential of the hour-quota scenario: 5 per minute, 2 per hour. -/
def scenario_hour_key : APIKey := ⟨"wh", "wh-secret", true, 5, 2⟩

/-- C2 (witness): with quota 2 per minute, the third request inside minute
bucket 0 is the rejected one with the minute body; with quota 2 per hour and
a wider minute quota, the third request is rejected with the hour body; and
on a cache with both counters at quota, the minute rejection wins. -/
theorem rate_limit_window_sequence_witness :
    (run_seq scenario_minute_key "3.3.3.3" ([10, 59] ++ [30]) []).1.getLast? =
      some (some (minute_limit_response scenario_minute_key)) ∧
    (run_seq scenario_hour_key "3.3.3.3" ([10, 59] ++ [30]) []).1.getLast? =
      some (some (hour_limit_response scenario_hour_key)) ∧
    (rate_limit_process
      [(minute_key scenario_minute_key "3.3.3.3" 0, 2),
       (hour_key scenario_minute_key "3.3.3.3" 0, 5)]
      scenario_minute_key "3.3.3.3" 0).1 =
      some (minute_limit_response scenario_minute_key) := by
  refine ⟨?_, ?_, ?_⟩
  · exact (rate_limit_window_sequence.1 scenario_minute_key "3.3.3.3" 0 [10, 59] 30
      rfl (by decide) (by decide) (by decide)).2
  · exact (rate_limit_window_sequence.2.1 scenario_hour_key "3.3.3.3" 0 [10, 59] 30
      rfl (by decide) (by decide) (by decide)).2
  · exact rate_limit_window_sequence.2.2
      [(minute_key scenario_minute_key "3.3.3.3" 0, 2),
       (hour_key scenario_minute_key "3.3.3.3" 0, 5)]
      scenario_minute_key "3.3.3.3" 0 (by decide) (by decide)

/-- A proxy-route request carrying the demo credential. -/
def authed_request : Request :=
  ⟨"GET", "/proxy/echo/ping", [("X-API-Key", "secret1")], "9.9.9.9", "http", "gw.example",
   "text/plain", [], []⟩

/-- C1 (counterexample): a request to a proxy route with no credential
enters the pipeline (its path matches no infrastructure prefix) and is
terminated by authentication, yet zero RequestLog rows are created, because
_log_request only writes a row when request.api_key was attached
(middleware.py line 162); the claim demands exactly one. -/
theorem audit_entry_counterexample :
    is_infra no_credential_request.path = false ∧
    (handle_request [demo_key] [] no_credential_request 0 ok_view).logs.length = 0 ∧
    (handle_request [demo_key] [] no_credential_request 0 ok_view).logs.length ≠ 1 := by
  decide

/-- C1 (amended): for every request outside the infrastructure paths,
exactly one RequestLog row is created when authentication attaches a
credential — whichever later stage (rate limiting, proxying, or the view)
terminates the request — and zero rows are created when authentication
terminates it, since the recorder skips requests without an attached
credential. -/
theorem audit_entry_amended :
    ∀ (keys : List APIKey) (c : Cache) (req : Request) (now : Nat) (view : Response),
      is_infra req.path = false →
      (∀ k, auth_process keys req = .proceed k →
        (handle_request keys c req now view).logs.length = 1) ∧
      (∀ r, auth_process keys req = .respond r →
        (handle_request keys c req now view).logs.length = 0) := by
  intro keys c req now view hinfra
  constructor
  · intro k hk
    rcases hrl : rate_limit_process c k (get_client_ip req) now with ⟨orr, c2, ops⟩
    cases orr <;> simp [handle_request, hinfra, hk, hrl, log_request]
  · intro r hr
    simp [handle_request, hinfra, hr, log_request]

/-- C1 (witness): one row for an authenticated request, zero rows for the
credential-less request. -/
theorem audit_entry_amended_witness :
    (handle_request [demo_key] [] authed_request 0 ok_view).logs.length = 1 ∧
    (handle_request [demo_key] [] no_credential_request 0 ok_view).logs.length = 0 := by
  constructor
  · exact (audit_entry_amended [demo_key] [] authed_request 0 ok_view (by decide)).1
      demo_key (by decide)
  · exact (audit_entry_amended [demo_key] [] no_credential_request 0 ok_view (by decide)).2
      missing_credential_response (by decide)
